import Mathlib

/-!
Verification of the ScenarioLab workflow controller.

The repository contains two variants of the dashboard workflow controller:
- `V0` embeds `src/unnamed/part_000` (steps CONFIGURE/GENERATING/SELF_TESTING/
  REVIEW/LAUNCHING/RUNNING/VALIDATING/RESULTS, with a provisional pre-launched
  lab slot that the Launch action can adopt);
- `V1` embeds `src/frontend/src/pages/Dashboard.tsx` (steps CONFIGURE/GENERATE/
  LAB/RESULTS, with an elapsed-seconds watchdog timer and a best-effort
  feedback-enrichment merge after validation).

Shared API types are embedded from `src/unnamed/part_004` (the api client with
`selfTest`, `getFeedback`, and the `feedback` field on `ValidationResult`).

Each React handler is embedded as a pure function from the component state
(plus the settled outcome of each remote call it may issue, as an `Except`)
to the new state together with the list of remote calls actually issued.
JavaScript truthiness of `string | null` values (`if (labId)`,
`result.error || '...'`) is modelled explicitly: `null` and `""` are falsy.
-/

/-- JS truthiness of a `string | null` value: `null` and `""` are falsy. -/
def strTruthy : Option String → Bool
  | none => false
  | some s => !(s == "")

/-- JS `a || b` for `a : string | null` and a string default `b`:
returns `b` when `a` is `null` or `""`. -/
def jsOr (a : Option String) (b : String) : String :=
  match a with
  | none => b
  | some s => if s == "" then b else s

/-- `ColumnDefinition` from src/unnamed/part_004. -/
structure ColumnDefinition where
  name : String
  data_type : String
  nullable : Bool
  is_primary_key : Bool
  description : String
deriving DecidableEq, Repr

/-- `SourceTable` from src/unnamed/part_004 (sample rows as opaque strings). -/
structure SourceTable where
  table_name : String
  description : String
  columns : List ColumnDefinition
  sample_data : List String
deriving DecidableEq, Repr

/-- `TargetTable` from src/unnamed/part_004. -/
structure TargetTable where
  table_name : String
  description : String
  columns : List ColumnDefinition
deriving DecidableEq, Repr

/-- `TransformationStep` from src/unnamed/part_004. -/
structure TransformationStep where
  step_number : Nat
  title : String
  description : String
  hint : String
  solution_code : String
  skill_tags : List String
deriving DecidableEq, Repr

/-- `ValidationQuery` from src/unnamed/part_004. -/
structure ValidationQuery where
  query_name : String
  sql : String
  expected_row_count : Nat
  expected_columns : List String
  description : String
deriving DecidableEq, Repr

/-- `ScenarioBlueprint` from src/unnamed/part_004. -/
structure ScenarioBlueprint where
  title : String
  description : String
  difficulty : String
  estimated_minutes : Nat
  learning_objectives : List String
  business_context : String
  source_tables : List SourceTable
  target_tables : List TargetTable
  transformation_steps : List TransformationStep
  validation_queries : List ValidationQuery
  lab_instructions : String
  success_epilogue : Option String := none
  failure_epilogue : Option String := none
deriving DecidableEq, Repr

/-- `FeedbackItem` from src/unnamed/part_004. -/
structure FeedbackItem where
  query_name : String
  diagnosis : String
  suggestion : String
deriving DecidableEq, Repr

/-- `ValidationResult` from src/unnamed/part_004. -/
structure ValidationResult where
  query_name : String
  passed : Bool
  expected_row_count : Nat
  actual_row_count : Option Int
  expected_columns : List String
  actual_columns : Option (List String)
  error : Option String
  feedback : Option FeedbackItem
deriving DecidableEq, Repr

/-- `SelfTestResponse` from src/unnamed/part_004. -/
structure SelfTestResponse where
  passed : Bool
  lab_id : Option String
  jupyter_url : Option String
  validation_results : List ValidationResult
  error : Option String
deriving DecidableEq, Repr

/-- Response of `api.launchLab` (also of `api.getLabStatus` restricted to the
fields the dashboards read). -/
structure LaunchResponse where
  lab_id : String
  status : String
  jupyter_url : Option String
deriving DecidableEq, Repr

/-- Response of `api.validateLab`. -/
structure ValidateResponse where
  lab_id : String
  all_passed : Bool
  results : List ValidationResult
deriving DecidableEq, Repr

/-- Response of `api.getFeedback`. -/
structure FeedbackResponse where
  lab_id : String
  feedback : List FeedbackItem
deriving DecidableEq, Repr

/-- Response of `api.stopLab`. -/
structure StopResponse where
  lab_id : String
  status : String
deriving DecidableEq, Repr

/-- A remote gateway call issued by a controller handler, in issue order. -/
inductive RemoteCall where
  | generate
  | getDemoBlueprint
  | selfTest
  | launchLab
  | validateLab (labId : String)
  | getFeedback (labId : String)
  | stopLab (labId : String)
deriving DecidableEq, Repr

namespace V0

/-- `WorkflowStep` of the src/unnamed/part_000 dashboard variant. -/
inductive Step where
  | CONFIGURE
  | GENERATING
  | SELF_TESTING
  | REVIEW
  | LAUNCHING
  | RUNNING
  | VALIDATING
  | RESULTS
deriving DecidableEq, Repr

/-- The `useState` fields of the src/unnamed/part_000 `Dashboard` component. -/
structure State where
  step : Step
  loading : Bool
  error : Option String
  blueprint : Option ScenarioBlueprint
  labId : Option String
  labStatus : String
  jupyterUrl : Option String
  validationResults : Option (List ValidationResult)
  allPassed : Bool
  prelaunchedLabId : Option String
  prelaunchedJupyterUrl : Option String
deriving DecidableEq, Repr

/-- The initial state of the component (the `useState` defaults). -/
def initState : State :=
  { step := .CONFIGURE
    loading := false
    error := none
    blueprint := none
    labId := none
    labStatus := "pending"
    jupyterUrl := none
    validationResults := none
    allPassed := false
    prelaunchedLabId := none
    prelaunchedJupyterUrl := none }

/-- `runSelfTest` of src/unnamed/part_000 (lines 27-43): sets the step to
SELF_TESTING, then on a passing response carrying a (truthy) lab id stores the
pre-launched handle and advances to REVIEW; otherwise reverts to CONFIGURE with
the returned diagnostic or a generic message. A thrown error (the `Except.error`
case) also reverts to CONFIGURE with the error message. -/
def runSelfTest (s : State) (resp : Except String SelfTestResponse) :
    State × List RemoteCall :=
  let s1 := { s with step := .SELF_TESTING }
  match resp with
  | .ok r =>
    if r.passed && strTruthy r.lab_id then
      ({ s1 with prelaunchedLabId := r.lab_id
                 prelaunchedJupyterUrl := r.jupyter_url
                 step := .REVIEW }, [.selfTest])
    else
      ({ s1 with error := some (jsOr r.error "Self-test failed — scenario may have bugs")
                 step := .CONFIGURE }, [.selfTest])
  | .error m =>
      ({ s1 with error := some m, step := .CONFIGURE }, [.selfTest])

/-- `handleGenerate` of src/unnamed/part_000 (lines 45-59): sets loading,
clears the error, enters GENERATING, then on generation success stores the
blueprint and runs the self-test; on failure reverts to CONFIGURE with the
error. The `finally` clears the loading flag in all branches. -/
def handleGenerate (s : State) (gen : Except String ScenarioBlueprint)
    (st : Except String SelfTestResponse) : State × List RemoteCall :=
  let s1 := { s with loading := true, error := none, step := .GENERATING }
  match gen with
  | .ok bp =>
      let (s2, c) := runSelfTest { s1 with blueprint := some bp } st
      ({ s2 with loading := false }, .generate :: c)
  | .error m =>
      ({ s1 with error := some m, step := .CONFIGURE, loading := false },
       [.generate])

/-- `handleLaunch` of src/unnamed/part_000 (lines 77-107): a no-op when no
blueprint is held; when a (truthy) pre-launched lab id exists, adopts it as the
primary handle with no remote call; otherwise issues a fresh `launchLab` call,
on success storing the returned handle and entering RUNNING, on failure
returning to REVIEW with the error set. -/
def handleLaunch (s : State) (resp : Except String LaunchResponse) :
    State × List RemoteCall :=
  if s.blueprint = none then (s, [])
  else if strTruthy s.prelaunchedLabId then
    ({ s with labId := s.prelaunchedLabId
              labStatus := "running"
              jupyterUrl := s.prelaunchedJupyterUrl
              prelaunchedLabId := none
              prelaunchedJupyterUrl := none
              step := .RUNNING }, [])
  else
    let s1 := { s with loading := true, error := none, step := .LAUNCHING }
    match resp with
    | .ok r =>
        ({ s1 with labId := some r.lab_id
                   labStatus := r.status
                   jupyterUrl := r.jupyter_url
                   step := .RUNNING
                   loading := false }, [.launchLab])
    | .error m =>
        ({ s1 with error := some m, step := .REVIEW, loading := false },
         [.launchLab])

/-- `handleValidate` of src/unnamed/part_000 (lines 109-125): a no-op when no
(truthy) lab id is held; otherwise enters VALIDATING and calls the validator,
on success storing results and the pass summary and entering RESULTS, on call
failure returning to RUNNING with the error set. -/
def handleValidate (s : State) (resp : Except String ValidateResponse) :
    State × List RemoteCall :=
  if !(strTruthy s.labId) then (s, [])
  else
    let lid := s.labId.getD ""
    let s1 := { s with loading := true, error := none, step := .VALIDATING }
    match resp with
    | .ok r =>
        ({ s1 with validationResults := some r.results
                   allPassed := r.all_passed
                   step := .RESULTS
                   loading := false }, [.validateLab lid])
    | .error m =>
        ({ s1 with error := some m, step := .RUNNING, loading := false },
         [.validateLab lid])

/-- `handleStop` of src/unnamed/part_000 (lines 127-141): a no-op when no
(truthy) lab id is held; on stop success clears the primary handle fields and
returns to CONFIGURE; on failure sets the error and leaves the handle fields
and the step untouched. -/
def handleStop (s : State) (resp : Except String StopResponse) :
    State × List RemoteCall :=
  if !(strTruthy s.labId) then (s, [])
  else
    let lid := s.labId.getD ""
    let s1 := { s with loading := true }
    match resp with
    | .ok _ =>
        ({ s1 with labStatus := "stopped"
                   labId := none
                   jupyterUrl := none
                   step := .CONFIGURE
                   loading := false }, [.stopLab lid])
    | .error m =>
        ({ s1 with error := some m, loading := false }, [.stopLab lid])

/-- `handleReset` of src/unnamed/part_000 (lines 143-163): when a (truthy)
pre-launched lab id is held, issues a best-effort stop for it (its outcome is
ignored); then unconditionally clears the workflow fields and returns to
CONFIGURE. The `loading` flag is not touched by this handler. -/
def handleReset (s : State) : State × List RemoteCall :=
  let calls := if strTruthy s.prelaunchedLabId
    then [RemoteCall.stopLab (s.prelaunchedLabId.getD "")] else []
  ({ s with step := .CONFIGURE
            blueprint := none
            labId := none
            labStatus := "pending"
            jupyterUrl := none
            validationResults := none
            allPassed := false
            error := none
            prelaunchedLabId := none
            prelaunchedJupyterUrl := none }, calls)

end V0

/-- Last-wins lookup of a feedback item by check name: the JS
`new Map(fbResponse.feedback.map(f => [f.query_name, f]))` keeps the last
entry for a duplicated key (src/frontend/src/pages/Dashboard.tsx lines
136-138). -/
def feedbackLookup (fb : List FeedbackItem) (name : String) :
    Option FeedbackItem :=
  fb.foldl (fun acc f => if f.query_name = name then some f else acc) none

/-- One step of the enrichment merge (src/frontend/src/pages/Dashboard.tsx
lines 139-142): `{...r, feedback: feedbackByName.get(r.query_name) ?? r.feedback}`. -/
def mergeOne (fb : List FeedbackItem) (r : ValidationResult) :
    ValidationResult :=
  { r with feedback := match feedbackLookup fb r.query_name with
      | some f => some f
      | none => r.feedback }

/-- The enrichment merge of src/frontend/src/pages/Dashboard.tsx lines
136-142: map `mergeOne` over the base results. -/
def mergeFeedback (results : List ValidationResult) (fb : List FeedbackItem) :
    List ValidationResult :=
  results.map (mergeOne fb)

/-- A validation result with its feedback field erased; used to state that the
merge touches no field other than `feedback`. -/
def stripFeedback (r : ValidationResult) : ValidationResult :=
  { r with feedback := none }

namespace V1

/-- `WorkflowStep` of src/frontend/src/components/StepIndicator.tsx
(src/unnamed/part_001 and part_002). -/
inductive Step where
  | CONFIGURE
  | GENERATE
  | LAB
  | RESULTS
deriving DecidableEq, Repr

/-- The `useState` fields of the src/frontend/src/pages/Dashboard.tsx
`Dashboard` component (the elapsed-seconds counter lives in the separate
`Timer` model below, as in the source it is driven by a `useEffect` on
`[loading, loadingMessage]`). -/
structure State where
  step : Step
  loading : Bool
  loadingMessage : Option String
  error : Option String
  blueprint : Option ScenarioBlueprint
  labId : Option String
  labStatus : String
  jupyterUrl : Option String
  validationResults : Option (List ValidationResult)
  allPassed : Bool
  launching : Bool
deriving DecidableEq, Repr

/-- The initial state of the component (the `useState` defaults). -/
def initState : State :=
  { step := .CONFIGURE
    loading := false
    loadingMessage := none
    error := none
    blueprint := none
    labId := none
    labStatus := "pending"
    jupyterUrl := none
    validationResults := none
    allPassed := false
    launching := false }

/-- The condition of the elapsed-timer `useEffect`
(src/frontend/src/pages/Dashboard.tsx line 30): `loading && loadingMessage`,
with JS truthiness on the message string. -/
def timerFlag (s : State) : Bool :=
  s.loading && strTruthy s.loadingMessage

/-- The elapsed-watchdog state: whether the interval is attached and the
current value of `elapsedSeconds`. -/
structure Timer where
  attached : Bool
  elapsed : Nat
deriving DecidableEq, Repr

/-- The body of the elapsed-timer `useEffect`
(src/frontend/src/pages/Dashboard.tsx lines 29-45), run whenever
`loading`/`loadingMessage` change: when the flag holds, reset the counter to 0
and attach the interval; otherwise clear the interval and zero the counter. -/
def timerSync (flag : Bool) : Timer → Timer :=
  fun _ => if flag then { attached := true, elapsed := 0 }
           else { attached := false, elapsed := 0 }

/-- One second of wall-clock time: the attached interval increments
`elapsedSeconds` (src/frontend/src/pages/Dashboard.tsx lines 32-34); a
detached timer does nothing. -/
def timerTick (t : Timer) : Timer :=
  if t.attached then { t with elapsed := t.elapsed + 1 } else t

/-- The synchronous prefix of `runSelfTest`
(src/frontend/src/pages/Dashboard.tsx line 48), run before the self-test call
settles. -/
def selfTestStart (s : State) : State :=
  { s with loadingMessage := some "Testing scenario..." }

/-- `runSelfTest` of src/frontend/src/pages/Dashboard.tsx (lines 47-64): on a
passing response carrying a (truthy) lab id, stores the handle as the primary
lab (this variant has no provisional slot) with status running and advances to
LAB; otherwise reverts to CONFIGURE with the returned diagnostic or a generic
message. -/
def runSelfTest (s : State) (resp : Except String SelfTestResponse) :
    State × List RemoteCall :=
  let s1 := selfTestStart s
  match resp with
  | .ok r =>
    if r.passed && strTruthy r.lab_id then
      ({ s1 with labId := r.lab_id
                 labStatus := "running"
                 jupyterUrl := r.jupyter_url
                 step := .LAB }, [.selfTest])
    else
      ({ s1 with error := some (jsOr r.error "Self-test failed — scenario may have bugs")
                 step := .CONFIGURE }, [.selfTest])
  | .error m =>
      ({ s1 with error := some m, step := .CONFIGURE }, [.selfTest])

/-- The synchronous prefix of `handleGenerate`
(src/frontend/src/pages/Dashboard.tsx lines 67-70): sets the loading flag and
message, clears the error, enters GENERATE. -/
def generateStart (s : State) : State :=
  { s with loading := true
           error := none
           step := .GENERATE
           loadingMessage := some "Generating your scenario (this may take a few minutes)..." }

/-- `handleGenerate` of src/frontend/src/pages/Dashboard.tsx (lines 66-82): on
generation success stores the blueprint and runs the self-test; on failure
reverts to CONFIGURE with the error. The `finally` clears the loading flag and
message in all branches. -/
def handleGenerate (s : State) (gen : Except String ScenarioBlueprint)
    (st : Except String SelfTestResponse) : State × List RemoteCall :=
  let s1 := generateStart s
  match gen with
  | .ok bp =>
      let (s2, c) := runSelfTest { s1 with blueprint := some bp } st
      ({ s2 with loading := false, loadingMessage := none }, .generate :: c)
  | .error m =>
      ({ s1 with error := some m, step := .CONFIGURE, loading := false,
                 loadingMessage := none }, [.generate])

/-- The synchronous prefix of `handleAutoLaunch`
(src/frontend/src/pages/Dashboard.tsx lines 104-105): sets the `launching`
flag and clears the error — it sets neither `loading` nor `loadingMessage`. -/
def autoLaunchStart (s : State) : State :=
  { s with launching := true, error := none }

/-- `handleAutoLaunch` of src/frontend/src/pages/Dashboard.tsx (lines
102-116): a no-op when no blueprint is held; otherwise issues a fresh
`launchLab` call, on success storing the returned handle fields, on failure
setting the error; the `finally` clears the `launching` flag. The step is
never changed. -/
def handleAutoLaunch (s : State) (resp : Except String LaunchResponse) :
    State × List RemoteCall :=
  if s.blueprint = none then (s, [])
  else
    let s1 := autoLaunchStart s
    match resp with
    | .ok r =>
        ({ s1 with labId := some r.lab_id
                   labStatus := r.status
                   jupyterUrl := r.jupyter_url
                   launching := false }, [.launchLab])
    | .error m =>
        ({ s1 with error := some m, launching := false }, [.launchLab])

/-- The synchronous prefix of `handleValidate`
(src/frontend/src/pages/Dashboard.tsx lines 120-123), after the lab-id guard:
sets the loading flag and message, clears the error, enters RESULTS. -/
def validateStart (s : State) : State :=
  { s with loading := true
           error := none
           step := .RESULTS
           loadingMessage := some "Checking your work..." }

/-- `handleValidate` of src/frontend/src/pages/Dashboard.tsx (lines 118-155):
a no-op when no (truthy) lab id is held. On validator success stores the base
results and pass summary; when at least one check failed, additionally issues
the best-effort `getFeedback` call and, if it succeeds, replaces the results
with the enrichment merge — a feedback failure is silently ignored. On
validator call failure sets the error and returns to LAB. The `finally`
clears the loading flag and message. -/
def handleValidate (s : State) (v : Except String ValidateResponse)
    (fb : Except String FeedbackResponse) : State × List RemoteCall :=
  if !(strTruthy s.labId) then (s, [])
  else
    let lid := s.labId.getD ""
    let s1 := validateStart s
    match v with
    | .ok r =>
        let s2 := { s1 with validationResults := some r.results
                            allPassed := r.all_passed }
        if r.results.any (fun x => !x.passed) then
          let s3 := { s2 with loadingMessage := some "Analyzing your work..." }
          let s4 := match fb with
            | .ok fr =>
                { s3 with validationResults := some (mergeFeedback r.results fr.feedback) }
            | .error _ => s3
          ({ s4 with loading := false, loadingMessage := none },
           [.validateLab lid, .getFeedback lid])
        else
          ({ s2 with loading := false, loadingMessage := none },
           [.validateLab lid])
    | .error m =>
        ({ s1 with error := some m, step := .LAB, loading := false,
                   loadingMessage := none }, [.validateLab lid])

/-- `handleStop` of src/frontend/src/pages/Dashboard.tsx (lines 157-171): a
no-op when no (truthy) lab id is held; on stop success clears the primary
handle fields and returns to CONFIGURE; on failure sets the error and leaves
the handle fields and the step untouched. -/
def handleStop (s : State) (resp : Except String StopResponse) :
    State × List RemoteCall :=
  if !(strTruthy s.labId) then (s, [])
  else
    let lid := s.labId.getD ""
    let s1 := { s with loading := true }
    match resp with
    | .ok _ =>
        ({ s1 with labStatus := "stopped"
                   labId := none
                   jupyterUrl := none
                   step := .CONFIGURE
                   loading := false }, [.stopLab lid])
    | .error m =>
        ({ s1 with error := some m, loading := false }, [.stopLab lid])

/-- `handleReset` of src/frontend/src/pages/Dashboard.tsx (lines 173-193):
when a (truthy) lab id is held — in this variant `labId` IS the primary
handle — issues a best-effort stop for it (its outcome is ignored); then
unconditionally clears the workflow fields and returns to CONFIGURE. The
`loading` flag is not touched by this handler. -/
def handleReset (s : State) : State × List RemoteCall :=
  let calls := if strTruthy s.labId
    then [RemoteCall.stopLab (s.labId.getD "")] else []
  ({ s with step := .CONFIGURE
            blueprint := none
            labId := none
            labStatus := "pending"
            jupyterUrl := none
            validationResults := none
            allPassed := false
            error := none
            launching := false
            loadingMessage := none }, calls)

end V1

/-! ## Concrete fixtures used by witnesses and counterexamples -/

/-- A concrete demo blueprint (shape of the §8 scenario fixture). -/
def bp0 : ScenarioBlueprint :=
  { title := "Retail ETL"
    description := "demo scenario"
    difficulty := "intermediate"
    estimated_minutes := 30
    learning_objectives := ["JOIN", "AGGREGATION"]
    business_context := "retail"
    source_tables := []
    target_tables := []
    transformation_steps := []
    validation_queries := []
    lab_instructions := "complete the pipeline" }

/-- A passing self-test response carrying handle `lab-1` (the §8 scenario). -/
def st0 : SelfTestResponse :=
  { passed := true
    lab_id := some "lab-1"
    jupyter_url := some "http://x"
    validation_results := []
    error := none }

/-- The V1 state reached from the initial state by a successful generation
followed by the passing self-test `st0`: step LAB, primary handle `lab-1`
shown as running. -/
def labState1 : V1.State :=
  (V1.handleGenerate V1.initState (.ok bp0) (.ok st0)).1

/-- A V0 state in the REVIEW step holding blueprint `bp0` and the provisional
pre-launched handle `lab-1` (as reached after a passing self-test). -/
def reviewState0 : V0.State :=
  { V0.initState with
      step := .REVIEW
      blueprint := some bp0
      prelaunchedLabId := some "lab-1"
      prelaunchedJupyterUrl := some "http://x" }

/-- A concrete validation result named `row_count_check`, failing. -/
def vr0 : ValidationResult :=
  { query_name := "row_count_check"
    passed := false
    expected_row_count := 10
    actual_row_count := some 7
    expected_columns := ["id", "total"]
    actual_columns := some ["id"]
    error := none
    feedback := none }

/-- A concrete feedback item for `row_count_check`. -/
def fbi0 : FeedbackItem :=
  { query_name := "row_count_check"
    diagnosis := "rows were dropped by the join"
    suggestion := "use a left join" }

/-! ## Claims -/

/-- Claim C1: in the part_000 variant, when a blueprint is held and a
provisional (truthy) pre-launched handle exists from a passing self-test,
triggering Launch adopts it: afterwards exactly one handle — now primary — is
tracked with status `running`, both provisional slots are empty, the step is
RUNNING, and no remote call at all is issued by the Launch action. -/
theorem v0_launch_adopts_prelaunched (s : V0.State)
    (resp : Except String LaunchResponse) (pid : String)
    (hbp : s.blueprint ≠ none) (hpre : s.prelaunchedLabId = some pid)
    (hne : pid ≠ "") :
    (V0.handleLaunch s resp).1.labId = some pid ∧
    (V0.handleLaunch s resp).1.labStatus = "running" ∧
    (V0.handleLaunch s resp).1.prelaunchedLabId = none ∧
    (V0.handleLaunch s resp).1.prelaunchedJupyterUrl = none ∧
    (V0.handleLaunch s resp).1.step = V0.Step.RUNNING ∧
    (V0.handleLaunch s resp).2 = [] := by
  have h1 : strTruthy (some pid) = true := by
    simp [strTruthy, hne]
  simp [V0.handleLaunch, hbp, hpre, h1]

/-- Witness for C1 at the concrete post-self-test state `reviewState0`. -/
theorem v0_launch_adopts_prelaunched_witness :
    (V0.handleLaunch reviewState0 (Except.error "never")).1.labId = some "lab-1" ∧
    (V0.handleLaunch reviewState0 (Except.error "never")).1.labStatus = "running" ∧
    (V0.handleLaunch reviewState0 (Except.error "never")).1.prelaunchedLabId = none ∧
    (V0.handleLaunch reviewState0 (Except.error "never")).1.prelaunchedJupyterUrl = none ∧
    (V0.handleLaunch reviewState0 (Except.error "never")).1.step = V0.Step.RUNNING ∧
    (V0.handleLaunch reviewState0 (Except.error "never")).2 = [] :=
  v0_launch_adopts_prelaunched reviewState0 (Except.error "never") "lab-1"
    (by simp [reviewState0, V0.initState]) rfl (by decide)

/-- Claim C2: in both variants, Reset returns the step to CONFIGURE with the
blueprint, the primary handle (and in part_000 the provisional handle),
validation results and the error slot all cleared; and Reset is idempotent in
effect — Reset immediately after Reset produces an identical state and issues
no stop call. -/
theorem reset_clears_and_is_idempotent :
    (∀ s : V0.State,
      (V0.handleReset s).1.step = V0.Step.CONFIGURE ∧
      (V0.handleReset s).1.blueprint = none ∧
      (V0.handleReset s).1.labId = none ∧
      (V0.handleReset s).1.prelaunchedLabId = none ∧
      (V0.handleReset s).1.prelaunchedJupyterUrl = none ∧
      (V0.handleReset s).1.validationResults = none ∧
      (V0.handleReset s).1.error = none ∧
      V0.handleReset (V0.handleReset s).1 = ((V0.handleReset s).1, [])) ∧
    (∀ s : V1.State,
      (V1.handleReset s).1.step = V1.Step.CONFIGURE ∧
      (V1.handleReset s).1.blueprint = none ∧
      (V1.handleReset s).1.labId = none ∧
      (V1.handleReset s).1.validationResults = none ∧
      (V1.handleReset s).1.error = none ∧
      V1.handleReset (V1.handleReset s).1 = ((V1.handleReset s).1, [])) := by
  constructor
  · intro s
    refine ⟨rfl, rfl, rfl, rfl, rfl, rfl, rfl, ?_⟩
    simp [V0.handleReset, strTruthy]
  · intro s
    refine ⟨rfl, rfl, rfl, rfl, rfl, ?_⟩
    simp [V1.handleReset, strTruthy]

/-- Claim C10: in both variants, a driving action whose required resource is
absent is a complete no-op: Launch with no blueprint, and Validate or Stop
with no primary lab id, leave the state unchanged and issue no remote call. -/
theorem guard_noops :
    (∀ (s : V0.State) r, s.blueprint = none → V0.handleLaunch s r = (s, [])) ∧
    (∀ (s : V0.State) r, s.labId = none → V0.handleValidate s r = (s, [])) ∧
    (∀ (s : V0.State) r, s.labId = none → V0.handleStop s r = (s, [])) ∧
    (∀ (s : V1.State) v fb, s.labId = none → V1.handleValidate s v fb = (s, [])) ∧
    (∀ (s : V1.State) r, s.labId = none → V1.handleStop s r = (s, [])) ∧
    (∀ (s : V1.State) r, s.blueprint = none → V1.handleAutoLaunch s r = (s, [])) := by
  refine ⟨?_, ?_, ?_, ?_, ?_, ?_⟩ <;> intro s r h
  · simp [V0.handleLaunch, h]
  · simp [V0.handleValidate, h, strTruthy]
  · simp [V0.handleStop, h, strTruthy]
  · intro hh
    simp [V1.handleValidate, hh, strTruthy]
  · simp [V1.handleStop, h, strTruthy]
  · simp [V1.handleAutoLaunch, h]

/-- Witness for C10 at the initial states, where no blueprint and no lab id
are held. -/
theorem guard_noops_witness :
    V0.initState.blueprint = none ∧
    V0.handleLaunch V0.initState (Except.error "e") = (V0.initState, []) ∧
    V0.handleValidate V0.initState (Except.error "e") = (V0.initState, []) ∧
    V0.handleStop V0.initState (Except.error "e") = (V0.initState, []) ∧
    V1.handleValidate V1.initState (Except.error "e") (Except.error "e") = (V1.initState, []) ∧
    V1.handleStop V1.initState (Except.error "e") = (V1.initState, []) ∧
    V1.handleAutoLaunch V1.initState (Except.error "e") = (V1.initState, []) :=
  ⟨rfl,
   guard_noops.1 V0.initState _ rfl,
   guard_noops.2.1 V0.initState _ rfl,
   guard_noops.2.2.1 V0.initState _ rfl,
   guard_noops.2.2.2.1 V1.initState _ _ rfl,
   guard_noops.2.2.2.2.1 V1.initState _ rfl,
   guard_noops.2.2.2.2.2 V1.initState _ rfl⟩

/-- The §8 failing self-test response: `{passed:false, error:"syntax error in
seed SQL"}`. -/
def stFail : SelfTestResponse :=
  { passed := false
    lab_id := none
    jupyter_url := none
    validation_results := []
    error := some "syntax error in seed SQL" }

/-- Claim C3: in both variants, a self-test response reporting `passed=false`,
or `passed=true` without a handle, is treated as a failure: the step reverts
to CONFIGURE and the error slot is set to `result.error || <generic>` — the
returned (nonempty) diagnostic when present, the generic message otherwise. -/
theorem selftest_failure_reverts (s0 : V0.State) (s1 : V1.State)
    (r : SelfTestResponse) (h : r.passed = false ∨ r.lab_id = none) :
    ((V0.runSelfTest s0 (Except.ok r)).1.step = V0.Step.CONFIGURE ∧
     (V0.runSelfTest s0 (Except.ok r)).1.error ≠ none ∧
     (V0.runSelfTest s0 (Except.ok r)).1.error =
       some (jsOr r.error "Self-test failed — scenario may have bugs")) ∧
    ((V1.runSelfTest s1 (Except.ok r)).1.step = V1.Step.CONFIGURE ∧
     (V1.runSelfTest s1 (Except.ok r)).1.error ≠ none ∧
     (V1.runSelfTest s1 (Except.ok r)).1.error =
       some (jsOr r.error "Self-test failed — scenario may have bugs")) ∧
    (∀ d, r.error = some d → d ≠ "" →
      jsOr r.error "Self-test failed — scenario may have bugs" = d) ∧
    (r.error = none →
      jsOr r.error "Self-test failed — scenario may have bugs" =
        "Self-test failed — scenario may have bugs") := by
  have hc : (r.passed && strTruthy r.lab_id) = false := by
    rcases h with h | h <;> simp [h, strTruthy]
  refine ⟨?_, ?_, ?_, ?_⟩
  · simp [V0.runSelfTest, hc]
  · simp [V1.runSelfTest, V1.selfTestStart, hc]
  · intro d hd hne
    simp [jsOr, hd, hne]
  · intro hd
    simp [jsOr, hd]

/-- Witness for C3 at the §8 failing self-test response `stFail`. -/
theorem selftest_failure_reverts_witness :
    (V0.runSelfTest V0.initState (Except.ok stFail)).1.step = V0.Step.CONFIGURE ∧
    (V0.runSelfTest V0.initState (Except.ok stFail)).1.error =
      some "syntax error in seed SQL" ∧
    (V1.runSelfTest V1.initState (Except.ok stFail)).1.step = V1.Step.CONFIGURE := by
  obtain ⟨⟨a0, b0, c0⟩, ⟨a1, b1, c1⟩, hd, hg⟩ :=
    selftest_failure_reverts V0.initState V1.initState stFail (Or.inl rfl)
  refine ⟨a0, ?_, a1⟩
  rw [c0]
  rfl

/-- An accumulator-generalised lemma about the feedback lookup fold: when no
item of the list matches the name, the fold returns its accumulator. -/
theorem feedbackLookup_fold_of_not_mem (fb : List FeedbackItem) (name : String)
    (h : ∀ f ∈ fb, f.query_name ≠ name) (acc : Option FeedbackItem) :
    fb.foldl (fun acc f => if f.query_name = name then some f else acc) acc
      = acc := by
  induction fb generalizing acc with
  | nil => rfl
  | cons g gs ih =>
      have hg : g.query_name ≠ name := h g (List.mem_cons_self g gs)
      have hrec := ih (fun f hf => h f (List.mem_cons_of_mem g hf))
      simp only [List.foldl_cons, if_neg hg]
      exact hrec acc

/-- When no feedback item matches the name, the lookup returns `none`. -/
theorem feedbackLookup_eq_none {fb : List FeedbackItem} {name : String}
    (h : ∀ f ∈ fb, f.query_name ≠ name) : feedbackLookup fb name = none :=
  feedbackLookup_fold_of_not_mem fb name h none

/-- Merging the same feedback into an already-merged entry changes nothing. -/
theorem mergeOne_idem (fb : List FeedbackItem) (r : ValidationResult) :
    mergeOne fb (mergeOne fb r) = mergeOne fb r := by
  cases h : feedbackLookup fb r.query_name <;> simp [mergeOne, h]

/-- The merge modifies no field other than `feedback`. -/
theorem stripFeedback_mergeOne (fb : List FeedbackItem) (r : ValidationResult) :
    stripFeedback (mergeOne fb r) = stripFeedback r := by
  cases h : feedbackLookup fb r.query_name <;> simp [mergeOne, stripFeedback, h]

/-- Claim C4: the enrichment merge is pure, order-preserving and idempotent —
merging the same feedback list twice equals merging it once; stripping the
`feedback` field recovers the base list (so no other field, in particular the
pass/fail flag, is modified, and order and length are preserved); an entry
whose check name is absent from the feedback list is unchanged; and the merge
is the pointwise map of a single-entry merge. -/
theorem merge_pure_order_preserving_idempotent :
    (∀ (rs : List ValidationResult) (fb : List FeedbackItem),
      mergeFeedback (mergeFeedback rs fb) fb = mergeFeedback rs fb) ∧
    (∀ (rs : List ValidationResult) (fb : List FeedbackItem),
      (mergeFeedback rs fb).map stripFeedback = rs.map stripFeedback) ∧
    (∀ (rs : List ValidationResult) (fb : List FeedbackItem),
      (mergeFeedback rs fb).length = rs.length) ∧
    (∀ (fb : List FeedbackItem) (r : ValidationResult),
      (∀ f ∈ fb, f.query_name ≠ r.query_name) → mergeOne fb r = r) ∧
    (∀ (rs : List ValidationResult) (fb : List FeedbackItem),
      mergeFeedback rs fb = rs.map (mergeOne fb)) := by
  refine ⟨?_, ?_, ?_, ?_, ?_⟩
  · intro rs fb
    induction rs with
    | nil => rfl
    | cons r rest ih =>
        simp only [mergeFeedback, List.map_cons, List.map_map] at ih ⊢
        simp [mergeOne_idem, ih]
  · intro rs fb
    induction rs with
    | nil => rfl
    | cons r rest ih =>
        simp only [mergeFeedback, List.map_cons, List.map_map] at ih ⊢
        simp [stripFeedback_mergeOne, ih]
  · intro rs fb
    simp [mergeFeedback]
  · intro fb r h
    simp [mergeOne, feedbackLookup_eq_none h]
  · intro rs fb
    rfl

/-- Witness for C4 at concrete lists: the entry `vr0` is unchanged by a merge
whose feedback list names only a different check. -/
theorem merge_pure_order_preserving_idempotent_witness :
    (∀ f ∈ [FeedbackItem.mk "other_check" "d" "s"],
      f.query_name ≠ vr0.query_name) ∧
    mergeOne [FeedbackItem.mk "other_check" "d" "s"] vr0 = vr0 ∧
    mergeFeedback (mergeFeedback [vr0] [fbi0]) [fbi0] =
      mergeFeedback [vr0] [fbi0] :=
  ⟨by decide,
   merge_pure_order_preserving_idempotent.2.2.2.1
     [FeedbackItem.mk "other_check" "d" "s"] vr0 (by decide),
   merge_pure_order_preserving_idempotent.1 [vr0] [fbi0]⟩

/-- A concrete validate response for `lab-1` with one failing check. -/
def vresp0 : ValidateResponse :=
  { lab_id := "lab-1"
    all_passed := false
    results := [vr0] }

/-- A concrete V0 state in the RUNNING step with adopted primary handle
`lab-1` shown as running and no provisional handle. -/
def running0 : V0.State :=
  { V0.initState with
      step := .RUNNING
      blueprint := some bp0
      labId := some "lab-1"
      labStatus := "running"
      jupyterUrl := some "http://x" }

/-- Claim C5: in the Dashboard.tsx variant, the `getFeedback` enrichment call
is issued (immediately after the `validateLab` call) exactly when the validate
call succeeded and at least one returned check failed; and when the enrichment
call fails, the stored base results, the pass/fail summary and the (empty)
error slot are exactly those of the validate response — enrichment failure
changes nothing and surfaces no workflow error. -/
theorem enrichment_gating_and_isolation (s : V1.State) (lid : String)
    (h : s.labId = some lid) (hne : lid ≠ "") :
    (∀ (r : ValidateResponse) (fbr : Except String FeedbackResponse),
      (V1.handleValidate s (Except.ok r) fbr).2 =
        if r.results.any (fun x => !x.passed)
        then [RemoteCall.validateLab lid, RemoteCall.getFeedback lid]
        else [RemoteCall.validateLab lid]) ∧
    (∀ (m : String) (fbr : Except String FeedbackResponse),
      (V1.handleValidate s (Except.error m) fbr).2 = [RemoteCall.validateLab lid]) ∧
    (∀ (r : ValidateResponse) (m : String),
      r.results.any (fun x => !x.passed) = true →
      (V1.handleValidate s (Except.ok r) (Except.error m)).1.validationResults
          = some r.results ∧
      (V1.handleValidate s (Except.ok r) (Except.error m)).1.allPassed
          = r.all_passed ∧
      (V1.handleValidate s (Except.ok r) (Except.error m)).1.error = none) := by
  have ht : strTruthy (some lid) = true := by
    simp [strTruthy, hne]
  refine ⟨?_, ?_, ?_⟩
  · intro r fbr
    by_cases hf : (r.results.any fun x => !x.passed) = true
    · simp [V1.handleValidate, V1.validateStart, ht, h, hf]
    · simp [V1.handleValidate, V1.validateStart, ht, h, hf]
  · intro m fbr
    simp [V1.handleValidate, V1.validateStart, ht, h]
  · intro r m hf
    simp [V1.handleValidate, V1.validateStart, ht, h, hf]

/-- Witness for C5 at the reachable state `labState1` and the one-failing-check
response `vresp0`, with the enrichment call failing. -/
theorem enrichment_gating_and_isolation_witness :
    (V1.handleValidate labState1 (Except.ok vresp0) (Except.error "boom")).1.validationResults
        = some vresp0.results ∧
    (V1.handleValidate labState1 (Except.ok vresp0) (Except.error "boom")).1.error
        = none ∧
    (V1.handleValidate labState1 (Except.ok vresp0) (Except.error "boom")).2
        = [RemoteCall.validateLab "lab-1", RemoteCall.getFeedback "lab-1"] := by
  obtain ⟨c1, c2, c3⟩ :=
    enrichment_gating_and_isolation labState1 "lab-1" rfl (by decide)
  obtain ⟨e1, e2, e3⟩ := c3 vresp0 "boom" (by decide)
  refine ⟨e1, e3, ?_⟩
  rw [c1 vresp0 (Except.error "boom")]
  decide

/-- Claim C6: in both variants, Stop on a held (truthy) primary lab id clears
the local handle (id and URL cleared, status `stopped`) and returns to
CONFIGURE whenever the stop call returns without error — whatever status the
gateway reports, including an already-stopped lab; on stop failure the error
is surfaced and the handle fields and the step are unchanged. -/
theorem stop_success_clears_failure_preserves (s0 : V0.State) (s1 : V1.State)
    (l0 l1 : String) (h0 : s0.labId = some l0) (h0ne : l0 ≠ "")
    (h1 : s1.labId = some l1) (h1ne : l1 ≠ "") :
    (∀ r : StopResponse,
      (V0.handleStop s0 (Except.ok r)).1.labId = none ∧
      (V0.handleStop s0 (Except.ok r)).1.jupyterUrl = none ∧
      (V0.handleStop s0 (Except.ok r)).1.labStatus = "stopped" ∧
      (V0.handleStop s0 (Except.ok r)).1.step = V0.Step.CONFIGURE ∧
      (V0.handleStop s0 (Except.ok r)).2 = [RemoteCall.stopLab l0]) ∧
    (∀ m : String,
      (V0.handleStop s0 (Except.error m)).1.error = some m ∧
      (V0.handleStop s0 (Except.error m)).1.labId = s0.labId ∧
      (V0.handleStop s0 (Except.error m)).1.labStatus = s0.labStatus ∧
      (V0.handleStop s0 (Except.error m)).1.jupyterUrl = s0.jupyterUrl ∧
      (V0.handleStop s0 (Except.error m)).1.step = s0.step) ∧
    (∀ r : StopResponse,
      (V1.handleStop s1 (Except.ok r)).1.labId = none ∧
      (V1.handleStop s1 (Except.ok r)).1.jupyterUrl = none ∧
      (V1.handleStop s1 (Except.ok r)).1.labStatus = "stopped" ∧
      (V1.handleStop s1 (Except.ok r)).1.step = V1.Step.CONFIGURE ∧
      (V1.handleStop s1 (Except.ok r)).2 = [RemoteCall.stopLab l1]) ∧
    (∀ m : String,
      (V1.handleStop s1 (Except.error m)).1.error = some m ∧
      (V1.handleStop s1 (Except.error m)).1.labId = s1.labId ∧
      (V1.handleStop s1 (Except.error m)).1.labStatus = s1.labStatus ∧
      (V1.handleStop s1 (Except.error m)).1.jupyterUrl = s1.jupyterUrl ∧
      (V1.handleStop s1 (Except.error m)).1.step = s1.step) := by
  have ht0 : strTruthy (some l0) = true := by simp [strTruthy, h0ne]
  have ht1 : strTruthy (some l1) = true := by simp [strTruthy, h1ne]
  refine ⟨?_, ?_, ?_, ?_⟩
  · intro r
    simp [V0.handleStop, ht0, h0]
  · intro m
    simp [V0.handleStop, ht0, h0]
  · intro r
    simp [V1.handleStop, ht1, h1]
  · intro m
    simp [V1.handleStop, ht1, h1]

/-- Witness for C6 at the concrete running states, with the gateway reporting
the lab as already stopped. -/
theorem stop_success_clears_failure_preserves_witness :
    (V0.handleStop running0 (Except.ok (StopResponse.mk "lab-1" "stopped"))).1.labId = none ∧
    (V0.handleStop running0 (Except.ok (StopResponse.mk "lab-1" "stopped"))).1.step = V0.Step.CONFIGURE ∧
    (V1.handleStop labState1 (Except.ok (StopResponse.mk "lab-1" "stopped"))).1.labId = none ∧
    (V1.handleStop labState1 (Except.ok (StopResponse.mk "lab-1" "stopped"))).1.step = V1.Step.CONFIGURE ∧
    (V0.handleStop running0 (Except.error "gateway down")).1.labId = some "lab-1" ∧
    (V0.handleStop running0 (Except.error "gateway down")).1.error = some "gateway down" := by
  obtain ⟨hok0, herr0, hok1, herr1⟩ :=
    stop_success_clears_failure_preserves running0 labState1 "lab-1" "lab-1"
      rfl (by decide) rfl (by decide)
  obtain ⟨a0, b0, c0, d0, e0⟩ := hok0 (StopResponse.mk "lab-1" "stopped")
  obtain ⟨a1, b1, c1, d1, e1⟩ := hok1 (StopResponse.mk "lab-1" "stopped")
  obtain ⟨f0, g0, i0, j0, k0⟩ := herr0 "gateway down"
  exact ⟨a0, d0, a1, d1, g0, f0⟩

/-- Claim C9 (implicit frame property): in both variants, a successful Stop
changes only the step, the primary-handle fields and the loading flag — the
blueprint, the stored validation results, the pass/fail summary, the error
slot (and the provisional slots in part_000, the loading message and
launching flag in Dashboard.tsx) are left exactly as they were, so returning
to CONFIGURE via Stop, unlike Reset, retains the blueprint and any previous
results. -/
theorem stop_frame_preserves_rest (s0 : V0.State) (s1 : V1.State)
    (l0 l1 : String) (h0 : s0.labId = some l0) (h0ne : l0 ≠ "")
    (h1 : s1.labId = some l1) (h1ne : l1 ≠ "") :
    (∀ r : StopResponse,
      (V0.handleStop s0 (Except.ok r)).1.blueprint = s0.blueprint ∧
      (V0.handleStop s0 (Except.ok r)).1.validationResults = s0.validationResults ∧
      (V0.handleStop s0 (Except.ok r)).1.allPassed = s0.allPassed ∧
      (V0.handleStop s0 (Except.ok r)).1.error = s0.error ∧
      (V0.handleStop s0 (Except.ok r)).1.prelaunchedLabId = s0.prelaunchedLabId ∧
      (V0.handleStop s0 (Except.ok r)).1.prelaunchedJupyterUrl = s0.prelaunchedJupyterUrl ∧
      (V0.handleStop s0 (Except.ok r)).1.loading = false) ∧
    (∀ r : StopResponse,
      (V1.handleStop s1 (Except.ok r)).1.blueprint = s1.blueprint ∧
      (V1.handleStop s1 (Except.ok r)).1.validationResults = s1.validationResults ∧
      (V1.handleStop s1 (Except.ok r)).1.allPassed = s1.allPassed ∧
      (V1.handleStop s1 (Except.ok r)).1.error = s1.error ∧
      (V1.handleStop s1 (Except.ok r)).1.loadingMessage = s1.loadingMessage ∧
      (V1.handleStop s1 (Except.ok r)).1.launching = s1.launching ∧
      (V1.handleStop s1 (Except.ok r)).1.loading = false) := by
  have ht0 : strTruthy (some l0) = true := by simp [strTruthy, h0ne]
  have ht1 : strTruthy (some l1) = true := by simp [strTruthy, h1ne]
  constructor
  · intro r
    simp [V0.handleStop, ht0, h0]
  · intro r
    simp [V1.handleStop, ht1, h1]

/-- Witness for C9 at a running state that holds a blueprint and previous
results: Stop retains both, unlike Reset. -/
theorem stop_frame_preserves_rest_witness :
    (V0.handleStop
      { running0 with validationResults := some [vr0] }
      (Except.ok (StopResponse.mk "lab-1" "stopped"))).1.blueprint = some bp0 ∧
    (V0.handleStop
      { running0 with validationResults := some [vr0] }
      (Except.ok (StopResponse.mk "lab-1" "stopped"))).1.validationResults = some [vr0] ∧
    (V1.handleStop labState1 (Except.ok (StopResponse.mk "lab-1" "stopped"))).1.blueprint
        = labState1.blueprint := by
  obtain ⟨p0, p1⟩ :=
    stop_frame_preserves_rest { running0 with validationResults := some [vr0] }
      labState1 "lab-1" "lab-1" rfl (by decide) rfl (by decide)
  obtain ⟨a0, b0, c0, d0, e0, f0, g0⟩ := p0 (StopResponse.mk "lab-1" "stopped")
  obtain ⟨a1, b1, c1, d1, e1, f1, g1⟩ := p1 (StopResponse.mk "lab-1" "stopped")
  exact ⟨a0, b0, a1⟩

/-- Counterexample to claim C7: in the Dashboard.tsx variant — which holds no
provisional slot, so the handle adopted from the passing self-test IS the
primary `labId`, shown as running in the LAB step — Reset issues a stop call
for that adopted primary handle. `labState1` is reachable: it is the state
after a successful generation and the passing self-test `st0` from the
initial state. -/
theorem reset_stops_adopted_primary_cex :
    labState1.labId = some "lab-1" ∧
    labState1.labStatus = "running" ∧
    labState1.step = V1.Step.LAB ∧
    (V1.handleReset labState1).2 = [RemoteCall.stopLab "lab-1"] := by
  refine ⟨rfl, rfl, rfl, ?_⟩
  decide

/-- Claim C7 as amended: the variants differ. In the part_000 variant, Reset's
best-effort stop targets only the provisional (pre-launched, unadopted) slot:
with no provisional handle, Reset issues no call at all — whatever primary
handle is held and shown running — and with a provisional handle `p` it issues
exactly the one stop for `p`. In the Dashboard.tsx variant, Reset issues a
best-effort stop for the primary `labId` whenever one is held. -/
theorem reset_stop_call_targets (s0 : V0.State) (s1 : V1.State) (lid : String)
    (h0 : s0.prelaunchedLabId = none) (h1 : s1.labId = some lid)
    (hne : lid ≠ "") :
    (V0.handleReset s0).2 = [] ∧
    (∀ p, p ≠ "" →
      (V0.handleReset { s0 with prelaunchedLabId := some p }).2
        = [RemoteCall.stopLab p]) ∧
    (V1.handleReset s1).2 = [RemoteCall.stopLab lid] := by
  refine ⟨?_, ?_, ?_⟩
  · simp [V0.handleReset, h0, strTruthy]
  · intro p hp
    simp [V0.handleReset, strTruthy, hp]
  · simp [V1.handleReset, h1, strTruthy, hne]

/-- Witness for the amended C7: at the V0 running state — primary `lab-1`
adopted and shown running, provisional slot empty — Reset issues no stop call;
at the V1 state `labState1` it stops the primary. -/
theorem reset_stop_call_targets_witness :
    running0.prelaunchedLabId = none ∧
    running0.labId = some "lab-1" ∧
    running0.labStatus = "running" ∧
    (V0.handleReset running0).2 = [] ∧
    (V1.handleReset labState1).2 = [RemoteCall.stopLab "lab-1"] := by
  obtain ⟨a, b, c⟩ :=
    reset_stop_call_targets running0 labState1 "lab-1" rfl rfl (by decide)
  exact ⟨rfl, rfl, rfl, a, c⟩

/-- Counterexample to claim C8: entering the launch-provisioning state via
`handleAutoLaunch` from the reachable state `labState1` (which holds a
blueprint, so the launch really proceeds) sets the `launching` flag but does
not attach the elapsed watchdog: the timer condition `loading &&
loadingMessage` is false on entry, so the effect leaves the interval detached
with the counter at zero. -/
theorem watchdog_not_attached_on_launch_cex :
    labState1.blueprint = some bp0 ∧
    (V1.autoLaunchStart labState1).launching = true ∧
    V1.timerFlag (V1.autoLaunchStart labState1) = false ∧
    V1.timerSync (V1.timerFlag (V1.autoLaunchStart labState1))
        (V1.Timer.mk false 0) = V1.Timer.mk false 0 ∧
    V1.timerFlag (V1.handleAutoLaunch labState1
        (Except.ok (LaunchResponse.mk "lab-2" "running" none))).1 = false := by
  refine ⟨?_, rfl, ?_, ?_, ?_⟩ <;> decide

/-- Claim C8 as amended: the elapsed watchdog is governed by the condition
`loading && loadingMessage`. On entering a state satisfying it the counter
resets to 0 and attaches; it increments once per second while attached and is
inert while detached; on leaving the condition it detaches and zeroes. The
generation and validation entries set the condition, the self-test entry keeps
the surrounding generation's loading flag — but the launch-provisioning entry
(`handleAutoLaunch`) leaves the condition untouched, so no watchdog is
attached for it; and on completion of generate/validate (success or failure)
the condition is false again. -/
theorem watchdog_long_running_behavior :
    (∀ t, V1.timerSync true t = V1.Timer.mk true 0) ∧
    (∀ t, V1.timerSync false t = V1.Timer.mk false 0) ∧
    (∀ n, V1.timerTick (V1.Timer.mk true n) = V1.Timer.mk true (n + 1)) ∧
    (∀ n, V1.timerTick (V1.Timer.mk false n) = V1.Timer.mk false n) ∧
    (∀ s, V1.timerFlag (V1.generateStart s) = true) ∧
    (∀ s, V1.timerFlag (V1.validateStart s) = true) ∧
    (∀ s, V1.timerFlag (V1.selfTestStart s) = s.loading) ∧
    (∀ s, V1.timerFlag (V1.autoLaunchStart s) = V1.timerFlag s) ∧
    (∀ s g st, V1.timerFlag (V1.handleGenerate s g st).1 = false) ∧
    (∀ (s : V1.State) v fb, strTruthy s.labId = true →
      V1.timerFlag (V1.handleValidate s v fb).1 = false) ∧
    (∀ (s : V1.State) r, V1.timerFlag (V1.handleAutoLaunch s r).1
        = V1.timerFlag s) := by
  refine ⟨?_, ?_, ?_, ?_, ?_, ?_, ?_, ?_, ?_, ?_, ?_⟩
  · intro t
    rfl
  · intro t
    rfl
  · intro n
    rfl
  · intro n
    rfl
  · intro s
    rfl
  · intro s
    rfl
  · intro s
    simp [V1.timerFlag, V1.selfTestStart, strTruthy]
  · intro s
    rfl
  · intro s g st
    cases g with
    | error m => rfl
    | ok bp =>
        cases st with
        | error m => rfl
        | ok r =>
            simp only [V1.handleGenerate, V1.runSelfTest]
            split <;> rfl
  · intro s v fb hl
    have hg : ¬((!strTruthy s.labId) = true) := by simp [hl]
    cases v with
    | error m =>
        simp only [V1.handleValidate]
        rw [if_neg hg]
        simp [V1.timerFlag]
    | ok r =>
        cases fb with
        | error m =>
            simp only [V1.handleValidate]
            rw [if_neg hg]
            split <;> simp [V1.timerFlag]
        | ok fr =>
            simp only [V1.handleValidate]
            rw [if_neg hg]
            split <;> simp [V1.timerFlag]
  · intro s r
    by_cases hb : s.blueprint = none
    · simp [V1.handleAutoLaunch, hb]
    · cases r <;> simp [V1.handleAutoLaunch, hb, V1.autoLaunchStart, V1.timerFlag]

/-- Witness for the amended C8 at the reachable state `labState1`: the lab id
is truthy and the watchdog condition is false after a (failing) validate call
completes. -/
theorem watchdog_long_running_behavior_witness :
    strTruthy labState1.labId = true ∧
    V1.timerFlag (V1.handleValidate labState1
        (Except.error "x") (Except.error "y")).1 = false := by
  obtain ⟨-, -, -, -, -, -, -, -, -, hval, -⟩ := watchdog_long_running_behavior
  exact ⟨by decide, hval labState1 (Except.error "x") (Except.error "y") (by decide)⟩
